import Mathlib

/-!
Shallow embedding of the "kasparro agentic" content-generation pipeline.

The Python source (src/) is embedded as executable Lean definitions:
pure methods become Lean functions, exception-raising code returns
`Except PyErr`, the orchestrator's mutable state becomes explicit state
passing, and the one unbounded `while` loop is modelled with explicit
fuel (so that divergence of the Python loop is visible as `none` for
every fuel value).
-/

/-- Python exceptions that can escape the embedded code, together with the
two error names used by the specification's error taxonomy (§7).  The code
under `src/` only ever raises `keyError` (dict subscript on a missing key)
and `valueError` (`int()` on a non-numeral string); `missingFieldError` and
`priceParseError` are the specification's names and are produced by no
definition translated from the source. -/
inductive PyErr where
  | keyError (key : String)
  | valueError
  | missingFieldError (key : String)
  | priceParseError
deriving DecidableEq, Repr

deriving instance DecidableEq for Except

/-- `src/models/schemas.py` — `ProductModel`. -/
structure ProductModel where
  name : String
  concentration : String
  skin_type : List String
  key_ingredients : List String
  benefits : List String
  how_to_use : String
  side_effects : String
  price : String
deriving DecidableEq, Repr

/-- `src/models/schemas.py` — `QuestionCategory` (a `str` Enum). -/
inductive QuestionCategory where
  | INFORMATIONAL
  | SAFETY
  | USAGE
  | PURCHASE
  | COMPARISON
  | INGREDIENTS
deriving DecidableEq, Repr

/-- The `.value` string of a `QuestionCategory` member. -/
def QuestionCategory.value : QuestionCategory → String
  | .INFORMATIONAL => "Informational"
  | .SAFETY => "Safety"
  | .USAGE => "Usage"
  | .PURCHASE => "Purchase"
  | .COMPARISON => "Comparison"
  | .INGREDIENTS => "Ingredients"

/-- `src/models/schemas.py` — `QuestionModel`. -/
structure QuestionModel where
  question : String
  answer : String
  category : QuestionCategory
deriving DecidableEq, Repr

/-- `src/models/schemas.py` — `FAQPageModel` (`page_type` defaults to `"faq"`). -/
structure FAQPageModel where
  page_type : String := "faq"
  product_name : String
  questions : List QuestionModel
  total_questions : Nat
deriving DecidableEq, Repr

/-- `src/models/schemas.py` — `BenefitDetail`. -/
structure BenefitDetail where
  benefit : String
  description : String
deriving DecidableEq, Repr

/-- `src/models/schemas.py` — `UsageInstructions`. -/
structure UsageInstructions where
  instruction : String
  frequency : String
  timing : String
  application_method : String
deriving DecidableEq, Repr

/-- `src/models/schemas.py` — `SafetyInfo`. -/
structure SafetyInfo where
  side_effects : String
  suitable_skin_types : List String
  precautions : List String
deriving DecidableEq, Repr

/-- `src/models/schemas.py` — `ProductPageModel`. -/
structure ProductPageModel where
  page_type : String := "product_page"
  product_name : String
  concentration : String
  price : String
  benefits : List BenefitDetail
  usage_instructions : UsageInstructions
  safety_info : SafetyInfo
  key_ingredients : List String
deriving DecidableEq, Repr

/-- `src/models/schemas.py` — `ComparisonRow` (`winner` is `Optional[str]`).
The source field `attribute` is a Lean keyword, hence the trailing
underscore. -/
structure ComparisonRow where
  attribute_ : String
  product_a_value : String
  product_b_value : String
  winner : Option String := none
deriving DecidableEq, Repr

/-- `src/models/schemas.py` — `ComparisonPageModel`. -/
structure ComparisonPageModel where
  page_type : String := "comparison"
  product_a : ProductModel
  product_b : ProductModel
  comparison_table : List ComparisonRow
  summary : String
deriving DecidableEq, Repr

/-! ### Python string primitives used by the source -/

/-- Python `str.isdigit` on a single character.  Besides the ASCII decimal
digits, Python classifies many Unicode characters with the digit property as
digits; of those, only the Latin-1 superscripts can occur in this
repository's data (`"â‚¹899"` contains U+00B9 SUPERSCRIPT ONE), so the model
covers exactly the ASCII digits and the three superscripts. -/
def pyIsDigit (c : Char) : Bool :=
  c.isDigit || c == '¹' || c == '²' || c == '³'

/-- Numeric value of a list of ASCII decimal digits, most significant first. -/
def digitsVal (cs : List Char) : Nat :=
  cs.foldl (fun n c => 10 * n + (c.toNat - 48)) 0

/-- Python `int(s)` restricted to the shapes the source can feed it: it
succeeds exactly on a non-empty string of decimal digits (Unicode category
Nd; here ASCII `0`-`9`) and raises `ValueError` otherwise.  In particular
`int("")` and `int("¹899")` raise `ValueError`: the superscript passes
`str.isdigit` but is not a decimal digit, so `int` rejects it. -/
def pyInt (s : List Char) : Except PyErr Nat :=
  if s ≠ [] ∧ s.all Char.isDigit then .ok (digitsVal s) else .error .valueError

/-- Python substring test `needle in hay` on the underlying character lists. -/
def listContainsInfix (needle : List Char) : List Char → Bool
  | [] => needle.isEmpty
  | c :: rest => needle.isPrefixOf (c :: rest) || listContainsInfix needle rest

/-- Python `needle in hay` for strings. -/
def strContainsStr (hay needle : String) : Bool :=
  listContainsInfix needle.data hay.data

/-- Python `str.strip()` with no argument: drop leading and trailing
whitespace. -/
def pyStrip (cs : List Char) : List Char :=
  ((cs.dropWhile Char.isWhitespace).reverse.dropWhile Char.isWhitespace).reverse

/-- Split a character list at every character satisfying `p` (the separator
is dropped; empty pieces are kept, as in Python `str.split(sep)`). -/
def splitOnPred (p : Char → Bool) : List Char → List Char → List (List Char)
  | [], acc => [acc.reverse]
  | c :: rest, acc =>
    if p c then acc.reverse :: splitOnPred p rest []
    else splitOnPred p rest (c :: acc)

/-- Python `str.split()` with no separator: split on whitespace runs,
discarding empty pieces. -/
def pySplitWS (s : String) : List String :=
  ((splitOnPred Char.isWhitespace s.data []).map String.mk).filter (fun w => w ≠ "")

/-- Python `str.lower()` (ASCII; the source's data stays within ASCII case
mapping). -/
def pyLower (s : String) : String :=
  String.mk (s.data.map Char.toLower)

/-! ### `src/blocks/content.py` — `ContentBlocks` -/

/-- The dict returned by `ContentBlocks.parse_price_block`. -/
structure PriceBlock where
  display_price : String
  numeric_value : Nat
  currency : String
  price_range : String
deriving DecidableEq, Repr

namespace ContentBlocks

/-- `ContentBlocks.parse_price_block` (content.py lines 78-89).
`int("".join(filter(str.isdigit, price_str)))` raises `ValueError` when the
filtered digit string is empty or contains a non-decimal digit character;
the embedding surfaces that as `Except.error`. -/
def parse_price_block (price_str : String) : Except PyErr PriceBlock := do
  let numeric_value ← pyInt (price_str.data.filter pyIsDigit)
  let currency := String.mk (pyStrip (price_str.data.filter (fun c => ! pyIsDigit c)))
  return { display_price := price_str
           numeric_value := numeric_value
           currency := currency
           price_range :=
             if numeric_value < 500 then "Budget"
             else if numeric_value < 1000 then "Mid-range"
             else "Premium" }

/-- `ContentBlocks.generate_benefits_block` (content.py lines 7-16). -/
def generate_benefits_block (product : ProductModel) : List BenefitDetail :=
  product.benefits.map (fun benefit =>
    { benefit := benefit
      description := "Helps with " ++ pyLower benefit ++ " for healthier-looking skin" })

/-- The per-token test of content.py line 32:
`word.replace('–', '-').replace('—', '-').split('-')[0].isdigit()`. -/
def tokenHeadIsDigit (word : String) : Bool :=
  let norm := word.data.map (fun c => if c = '–' ∨ c = '—' then '-' else c)
  match splitOnPred (fun c => c = '-') norm [] with
  | [] => false
  | h :: _ => h ≠ [] && h.all pyIsDigit

/-- `ContentBlocks.extract_usage_block` (content.py lines 18-41). -/
def extract_usage_block (product : ProductModel) : UsageInstructions :=
  let instruction := product.how_to_use
  let frequency :=
    if strContainsStr (pyLower instruction) "morning" then "Daily (AM)" else "As directed"
  let timing :=
    if strContainsStr (pyLower instruction) "before sunscreen" then "Before sunscreen"
    else "As needed"
  let application_method :=
    if strContainsStr (pyLower instruction) "drops" then
      match (pySplitWS instruction).filter tokenHeadIsDigit with
      | [] => "Topical application"
      | w :: _ => "Apply " ++ w ++ " drops"
    else "Topical application"
  { instruction := instruction
    frequency := frequency
    timing := timing
    application_method := application_method }

/-- `ContentBlocks.generate_safety_block` (content.py lines 43-64). -/
def generate_safety_block (product : ProductModel) : SafetyInfo :=
  let precautions :=
    (if strContainsStr (pyLower product.side_effects) "sensitive" then
      ["Patch test recommended for sensitive skin",
       "Start with lower frequency if irritation occurs"]
     else []) ++
    (if strContainsStr (pyLower product.side_effects) "tingling" then
      ["Mild tingling is normal and should subside"]
     else [])
  { side_effects := product.side_effects
    suitable_skin_types := product.skin_type
    precautions := if precautions = [] then ["Follow usage instructions as directed"]
                   else precautions }

/-- `ContentBlocks.compare_ingredients_block` (content.py lines 66-76), common
part only (the only part the callers use).  Python builds
`list(set_a & set_b)`; a Python `set` of strings iterates in an unspecified
(hash-dependent) order, so the embedding fixes the first-encounter order of
product A's list, after `set()`-deduplication. -/
def compare_ingredients_common (product_a product_b : ProductModel) : List String :=
  product_a.key_ingredients.dedup.filter (fun i => i ∈ product_b.key_ingredients)

end ContentBlocks

/-! ### `src/agents/question_agent.py` — `QuestionGeneratorAgent` -/

namespace QuestionGeneratorAgent

/-- `QuestionGeneratorAgent.execute` (question_agent.py lines 11-125): the
sixteen `QuestionModel` values appended to `questions`, in order. -/
def execute (product : ProductModel) : List QuestionModel :=
  [{ question := "What is " ++ product.name ++ "?"
     answer := product.name ++ " is a skincare serum with " ++ product.concentration ++
       ", designed for " ++ pyLower (String.intercalate " and " product.skin_type) ++
       " skin types."
     category := .INFORMATIONAL },
   { question := "What is the concentration of active ingredient in " ++ product.name ++ "?"
     answer := "The concentration is " ++ product.concentration ++ "."
     category := .INFORMATIONAL },
   { question := "What skin types is this product suitable for?"
     answer := "This product is suitable for " ++
       pyLower (String.intercalate " and " product.skin_type) ++ " skin types."
     category := .INFORMATIONAL },
   { question := "What are the key ingredients?"
     answer := "The key ingredients are " ++
       String.intercalate ", " product.key_ingredients ++ "."
     category := .INGREDIENTS },
   { question := "Does " ++ product.name ++ " contain Hyaluronic Acid?"
     answer := "Yes, " ++ product.name ++
       " contains Hyaluronic Acid as one of its key ingredients."
     category := .INGREDIENTS },
   { question := "How do I use this product?"
     answer := product.how_to_use
     category := .USAGE },
   { question := "When should I apply this serum?"
     answer := "Apply in the morning before sunscreen for best results."
     category := .USAGE },
   { question := "How many drops should I use?"
     answer := "Use 2-3 drops for each application."
     category := .USAGE },
   { question := "Are there any side effects?"
     answer := product.side_effects
     category := .SAFETY },
   { question := "Is this safe for sensitive skin?"
     answer := product.side_effects ++ ". A patch test is recommended."
     category := .SAFETY },
   { question := "Can I use this product daily?"
     answer := "Yes, this product can be used daily in your morning routine."
     category := .SAFETY },
   { question := "What is the price?"
     answer := "The price is " ++ product.price ++ "."
     category := .PURCHASE },
   { question := "Is this product affordable?"
     answer := "At " ++ product.price ++
       ", this product is in the mid-range category for vitamin C serums."
     category := .PURCHASE },
   { question := "What makes this different from other vitamin C serums?"
     answer := "This serum combines " ++ product.concentration ++ " with " ++
       String.intercalate " and " product.key_ingredients ++
       ", specifically formulated for " ++
       pyLower (String.intercalate " and " product.skin_type) ++ " skin types."
     category := .COMPARISON },
   { question := "What benefits does " ++ product.name ++ " provide?"
     answer := "The main benefits are " ++
       pyLower (String.intercalate " and " product.benefits) ++ "."
     category := .INFORMATIONAL },
   { question := "Can this help with dark spots?"
     answer := "Yes, this serum is designed to help fade dark spots as one of its primary benefits."
     category := .INFORMATIONAL }]

end QuestionGeneratorAgent

/-! ### `src/agents/comparison_agent.py` — `ComparisonAgent` -/

namespace ComparisonAgent

/-- `ComparisonAgent._create_fictional_product_b` (comparison_agent.py lines
14-28): a constant record; the argument is ignored.  The price literal is the
source's exact (mojibake) string `"â‚¹899"`, whose three non-ASCII characters
are U+00E2, U+201A, U+00B9. -/
def create_fictional_product_b (_product_a : ProductModel) : ProductModel :=
  { name := "RadiantGlow Niacinamide Serum"
    concentration := "5% Niacinamide"
    skin_type := ["Dry", "Sensitive"]
    key_ingredients := ["Niacinamide", "Hyaluronic Acid", "Zinc"]
    benefits := ["Pore minimizing", "Reduces redness"]
    how_to_use := "Apply 3-4 drops in the evening after cleansing"
    side_effects := "Generally well-tolerated"
    price := "â‚¹899" }

/-- The summary f-string of comparison_agent.py lines 118-124, as a function
of the two products and the common-ingredient list. -/
def comparison_summary (product_a product_b : ProductModel) (common : List String) : String :=
  product_a.name ++ " focuses on " ++
  pyLower (String.intercalate " and " product_a.benefits) ++
  " with " ++ product_a.concentration ++ ", while " ++ product_b.name ++
  " targets " ++ pyLower (String.intercalate " and " product_b.benefits) ++
  " using " ++ product_b.concentration ++ ". Both products contain " ++
  (if common ≠ [] then String.intercalate ", " common else "different ingredients") ++
  ". " ++ product_a.name ++ " is more affordable at " ++ product_a.price ++
  " compared to " ++ product_b.price ++ "."

/-- `ComparisonAgent.execute` (comparison_agent.py lines 30-127).  The eight
winner-free/fixed rows are built first; parsing either price string raises
(`Except.error`) out of the method, exactly as the Python `int()` call
escapes `execute`. -/
def execute (product_a : ProductModel) :
    Except PyErr (ProductModel × List ComparisonRow × String) := do
  let product_b := create_fictional_product_b product_a
  let common := ContentBlocks.compare_ingredients_common product_a product_b
  let price_a ← ContentBlocks.parse_price_block product_a.price
  let price_b ← ContentBlocks.parse_price_block product_b.price
  let comparison_table : List ComparisonRow :=
    [{ attribute_ := "Product Name", product_a_value := product_a.name,
       product_b_value := product_b.name, winner := none },
     { attribute_ := "Active Ingredient", product_a_value := product_a.concentration,
       product_b_value := product_b.concentration, winner := none },
     { attribute_ := "Suitable Skin Types",
       product_a_value := String.intercalate ", " product_a.skin_type,
       product_b_value := String.intercalate ", " product_b.skin_type, winner := none },
     { attribute_ := "Key Ingredients",
       product_a_value := String.intercalate ", " product_a.key_ingredients,
       product_b_value := String.intercalate ", " product_b.key_ingredients,
       winner := none },
     { attribute_ := "Common Ingredients",
       product_a_value := if common ≠ [] then String.intercalate ", " common else "None",
       product_b_value := if common ≠ [] then String.intercalate ", " common else "None",
       winner := none },
     { attribute_ := "Primary Benefits",
       product_a_value := String.intercalate ", " product_a.benefits,
       product_b_value := String.intercalate ", " product_b.benefits, winner := none },
     { attribute_ := "How to Use", product_a_value := product_a.how_to_use,
       product_b_value := product_b.how_to_use, winner := none },
     { attribute_ := "Side Effects", product_a_value := product_a.side_effects,
       product_b_value := product_b.side_effects, winner := some "Product B" },
     { attribute_ := "Price", product_a_value := product_a.price,
       product_b_value := product_b.price,
       winner := if price_a.numeric_value < price_b.numeric_value then some "Product A"
                 else some "Product B" }]
  return (product_b, comparison_table, comparison_summary product_a product_b common)

end ComparisonAgent

/-! ### `src/agents/writer_agent.py` — `WriterAgent` -/

namespace WriterAgent

/-- The first selection loop of `assemble_faq_page` (writer_agent.py lines
40-48).  `categories_seen` is a Python `set`; it is modelled as a
duplicate-free list with the same membership.  The Python `break` at the top
of the loop body is modelled by returning unchanged once five questions are
selected (the selection only ever grows, so the two are equivalent). -/
def selectLoop : List QuestionModel → List QuestionModel → List QuestionCategory →
    List QuestionModel × List QuestionCategory
  | [], sel, seen => (sel, seen)
  | q :: rest, sel, seen =>
    if 5 ≤ sel.length then (sel, seen)
    else if q.category ∉ seen ∨ sel.length < 3 then
      selectLoop rest (sel ++ [q]) (if q.category ∈ seen then seen else q.category :: seen)
    else selectLoop rest sel seen

/-- One execution of the inner `for` loop of the backfill `while` (writer
agent lines 52-56): append each question not already selected, breaking as
soon as the selection reaches five. -/
def fillPass : List QuestionModel → List QuestionModel → List QuestionModel
  | sel, [] => sel
  | sel, q :: rest =>
    if q ∈ sel then fillPass sel rest
    else if 5 ≤ sel.length + 1 then sel ++ [q]
    else fillPass (sel ++ [q]) rest

/-- The backfill `while` loop of writer_agent.py line 51, with explicit fuel:
`none` means the loop condition still held after `fuel` passes, so the Python
loop has not terminated within that budget (and, when a pass is a no-op,
never will). -/
def fillLoop : Nat → List QuestionModel → List QuestionModel → Option (List QuestionModel)
  | 0, sel, questions =>
    if sel.length < 5 ∧ sel.length < questions.length then none else some sel
  | n + 1, sel, questions =>
    if sel.length < 5 ∧ sel.length < questions.length then
      fillLoop n (fillPass sel questions) questions
    else some sel

/-- `WriterAgent.assemble_faq_page` (writer_agent.py lines 26-65), with the
while-loop fuel made explicit. -/
def assemble_faq_page (fuel : Nat) (product : ProductModel)
    (questions : List QuestionModel) : Option FAQPageModel :=
  match fillLoop fuel (selectLoop questions [] []).1 questions with
  | none => none
  | some sel => some { product_name := product.name, questions := sel,
                       total_questions := sel.length }

/-- `WriterAgent.assemble_product_page` (writer_agent.py lines 67-92). -/
def assemble_product_page (product : ProductModel) : ProductPageModel :=
  { product_name := product.name
    concentration := product.concentration
    price := product.price
    benefits := ContentBlocks.generate_benefits_block product
    usage_instructions := ContentBlocks.extract_usage_block product
    safety_info := ContentBlocks.generate_safety_block product
    key_ingredients := product.key_ingredients }

/-- `WriterAgent.assemble_comparison_page` (writer_agent.py lines 94-117). -/
def assemble_comparison_page (product_a product_b : ProductModel)
    (comparison_table : List ComparisonRow) (summary : String) : ComparisonPageModel :=
  { product_a := product_a, product_b := product_b,
    comparison_table := comparison_table, summary := summary }

end WriterAgent

/-! ### `src/agents/parser_agent.py` — `ParserAgent` -/

/-- A raw multi-value field: either a single delimited string or already a
list of strings (`isinstance(..., list)` in parser_agent.py). -/
inductive RawValue where
  | str (s : String)
  | list (l : List String)
deriving DecidableEq, Repr

/-- The raw input record: each required key either present (`some`) or
absent (`none`).  The four free-text fields and the price are used as
strings; the three multi-value fields may be a string or a list. -/
structure RawRecord where
  name : Option String := none
  concentration : Option String := none
  skin_type : Option RawValue := none
  key_ingredients : Option RawValue := none
  benefits : Option RawValue := none
  how_to_use : Option String := none
  side_effects : Option String := none
  price : Option String := none
deriving DecidableEq, Repr

/-- Python `raw_data[key]`: a missing key raises `KeyError(key)`. -/
def getKey (v : Option α) (key : String) : Except PyErr α :=
  match v with
  | some x => .ok x
  | none => .error (.keyError key)

/-- The multi-value normalization of parser_agent.py lines 25-27:
`x if isinstance(x, list) else [s.strip() for s in x.split(",")]`. -/
def normalizeField : RawValue → List String
  | .list l => l
  | .str s =>
    (splitOnPred (fun c => c = ',') s.data []).map (fun piece => String.mk (pyStrip piece))

namespace ParserAgent

/-- `ParserAgent.execute` (parser_agent.py lines 12-34).  The keys are
accessed in the keyword-argument order of the `ProductModel(...)` call, so
the `KeyError` names the first missing key in that order. -/
def execute (raw_data : RawRecord) : Except PyErr ProductModel := do
  let name ← getKey raw_data.name "name"
  let concentration ← getKey raw_data.concentration "concentration"
  let skin_type ← getKey raw_data.skin_type "skin_type"
  let key_ingredients ← getKey raw_data.key_ingredients "key_ingredients"
  let benefits ← getKey raw_data.benefits "benefits"
  let how_to_use ← getKey raw_data.how_to_use "how_to_use"
  let side_effects ← getKey raw_data.side_effects "side_effects"
  let price ← getKey raw_data.price "price"
  return { name := name
           concentration := concentration
           skin_type := normalizeField skin_type
           key_ingredients := normalizeField key_ingredients
           benefits := normalizeField benefits
           how_to_use := how_to_use
           side_effects := side_effects
           price := price }

end ParserAgent

/-! ### `src/orchestrator/workflow.py` — `WorkflowOrchestrator` -/

/-- `WorkflowState` (workflow.py lines 16-26).  The first member is named
`INITIALIZED` in the source. -/
inductive WorkflowState where
  | INIT
  | PARSED
  | QUESTIONS_GENERATED
  | COMPARISON_GENERATED
  | FAQ_ASSEMBLED
  | PRODUCT_PAGE_ASSEMBLED
  | COMPARISON_PAGE_ASSEMBLED
  | COMPLETED
  | FAILED
deriving DecidableEq, Repr

/-- The `.value` string of each `WorkflowState` member. -/
def WorkflowState.value : WorkflowState → String
  | .INIT => "initialized"
  | .PARSED => "parsed"
  | .QUESTIONS_GENERATED => "questions_generated"
  | .COMPARISON_GENERATED => "comparison_generated"
  | .FAQ_ASSEMBLED => "faq_assembled"
  | .PRODUCT_PAGE_ASSEMBLED => "product_page_assembled"
  | .COMPARISON_PAGE_ASSEMBLED => "comparison_page_assembled"
  | .COMPLETED => "completed"
  | .FAILED => "failed"

/-- The orchestrator's mutable instance fields (workflow.py lines 54-76):
`self.state`, the five pieces of run state, and the three outputs. -/
structure OrchState where
  state : WorkflowState := .INIT
  product : Option ProductModel := none
  questions : Option (List QuestionModel) := none
  product_b : Option ProductModel := none
  comparison_table : Option (List ComparisonRow) := none
  comparison_summary : Option String := none
  faq_out : Option FAQPageModel := none
  product_page_out : Option ProductPageModel := none
  comparison_out : Option ComparisonPageModel := none
deriving DecidableEq, Repr

/-- A fresh `WorkflowOrchestrator()` (workflow.py `__init__`). -/
def initialOrchState : OrchState := {}

/-- The three-key `outputs` mapping returned by a successful
`execute_pipeline` run. -/
structure PipelineOutputs where
  faq : FAQPageModel
  product_page : ProductPageModel
  comparison : ComparisonPageModel
deriving DecidableEq, Repr

/-- The dict returned by `get_pipeline_status` (workflow.py lines 149-161). -/
structure PipelineStatus where
  current_state : String
  product_parsed : Bool
  questions_generated : Bool
  comparison_generated : Bool
  faq_ready : Bool
  product_page_ready : Bool
  comparison_ready : Bool
deriving DecidableEq, Repr

namespace WorkflowOrchestrator

/-- `WorkflowOrchestrator.execute_pipeline` (workflow.py lines 83-147): the
six steps in order; any stage error transitions the machine to `FAILED` and
re-raises.  `fuel` bounds the FAQ backfill `while` loop; the overall `none`
means that loop did not terminate within the budget. -/
def execute_pipeline (fuel : Nat) (s : OrchState) (raw_data : RawRecord) :
    Option (OrchState × Except PyErr PipelineOutputs) :=
  match ParserAgent.execute raw_data with
  | .error e => some ({ s with state := .FAILED }, .error e)
  | .ok product =>
    let s1 := { s with product := some product, state := .PARSED }
    let questions := QuestionGeneratorAgent.execute product
    let s2 := { s1 with questions := some questions, state := .QUESTIONS_GENERATED }
    match ComparisonAgent.execute product with
    | .error e => some ({ s2 with state := .FAILED }, .error e)
    | .ok (product_b, comparison_table, summary) =>
      let s3 := { s2 with product_b := some product_b,
                          comparison_table := some comparison_table,
                          comparison_summary := some summary,
                          state := .COMPARISON_GENERATED }
      match WriterAgent.assemble_faq_page fuel product questions with
      | none => none
      | some faq =>
        let s4 := { s3 with faq_out := some faq, state := .FAQ_ASSEMBLED }
        let product_page := WriterAgent.assemble_product_page product
        let s5 := { s4 with product_page_out := some product_page,
                            state := .PRODUCT_PAGE_ASSEMBLED }
        let comparison := WriterAgent.assemble_comparison_page product product_b
          comparison_table summary
        let s6 := { s5 with comparison_out := some comparison,
                            state := .COMPLETED }
        some (s6, .ok { faq := faq, product_page := product_page,
                        comparison := comparison })

/-- `WorkflowOrchestrator.get_pipeline_status` (workflow.py lines 149-161). -/
def get_pipeline_status (s : OrchState) : PipelineStatus :=
  { current_state := s.state.value
    product_parsed := s.product.isSome
    questions_generated := s.questions.isSome
    comparison_generated := s.product_b.isSome
    faq_ready := s.faq_out.isSome
    product_page_ready := s.product_page_out.isSome
    comparison_ready := s.comparison_out.isSome }

end WorkflowOrchestrator

/-! ### Concrete data: the sample record of `src/main.py` -/

/-- `RAW_PRODUCT_DATA` (main.py lines 8-17); its price uses the genuine
rupee sign U+20B9. -/
def RAW_PRODUCT_DATA : RawRecord :=
  { name := some "GlowBoost Vitamin C Serum"
    concentration := some "10% Vitamin C"
    skin_type := some (.str "Oily, Combination")
    key_ingredients := some (.str "Vitamin C, Hyaluronic Acid")
    benefits := some (.str "Brightening, Fades dark spots")
    how_to_use := some "Apply 2-3 drops in the morning before sunscreen"
    side_effects := some "Mild tingling for sensitive skin"
    price := some "₹699" }

/-- The `ProductModel` that `ParserAgent.execute` produces from
`RAW_PRODUCT_DATA`. -/
def exampleProduct : ProductModel :=
  { name := "GlowBoost Vitamin C Serum"
    concentration := "10% Vitamin C"
    skin_type := ["Oily", "Combination"]
    key_ingredients := ["Vitamin C", "Hyaluronic Acid"]
    benefits := ["Brightening", "Fades dark spots"]
    how_to_use := "Apply 2-3 drops in the morning before sunscreen"
    side_effects := "Mild tingling for sensitive skin"
    price := "₹699" }

/-- The sample product with its price raised to `"₹999"`: its parsed numeric
price (999) exceeds the intended numeric price of Product B (899), so per the
claim the affordability sentence would have to name Product B. -/
def productA999 : ProductModel := { exampleProduct with price := "₹999" }

/-- The first fifteen questions of the generated catalog for the sample
product: a catalog of exactly 15 distinct questions spanning all six
categories in generation order. -/
def c2Catalog : List QuestionModel :=
  (QuestionGeneratorAgent.execute exampleProduct).take 15

/-- A single concrete question, used to build a catalog of duplicates. -/
def dupQuestion : QuestionModel :=
  { question := "Q", answer := "A", category := .SAFETY }

/-- Four identical (field-equal) catalog entries. -/
def dupCatalog : List QuestionModel :=
  [dupQuestion, dupQuestion, dupQuestion, dupQuestion]

/-- The sample raw record with the `price` key removed. -/
def recordMissingPrice : RawRecord := { RAW_PRODUCT_DATA with price := none }

/-- The sample product with an instruction in which the token immediately
preceding `drops` is `2-3`, but an earlier numeric token `10` occurs. -/
def c9Product : ProductModel :=
  { exampleProduct with how_to_use := "After 10 minutes apply 2-3 drops" }

/-! ### Helper lemmas -/

/-- `pyInt` only ever fails with `ValueError`. -/
theorem pyInt_error_eq {l : List Char} {e : PyErr} (h : pyInt l = .error e) :
    e = .valueError := by
  unfold pyInt at h
  split at h
  · exact absurd h (by simp)
  · exact (Except.error.injEq _ _).mp h |>.symm

/-- `parse_price_block` only ever fails with `ValueError` (the `int()` call
is the only raising operation inside it). -/
theorem parse_price_block_error_eq {s : String} {e : PyErr}
    (h : ContentBlocks.parse_price_block s = .error e) : e = .valueError := by
  unfold ContentBlocks.parse_price_block at h
  cases hp : pyInt (s.data.filter pyIsDigit) with
  | ok n => rw [hp] at h; simp [Except.bind] at h
  | error e' =>
    rw [hp] at h
    simp [Except.bind] at h
    rw [← h]
    exact pyInt_error_eq hp

/-- Parsing Product B's constant price string `"â‚¹899"` raises `ValueError`:
its digit-filtered characters are `¹899` (the U+00B9 superscript passes
`str.isdigit`) and `int` rejects the superscript. -/
theorem parse_price_block_b_price :
    ContentBlocks.parse_price_block "â‚¹899" = .error .valueError := by decide

/-- `ComparisonAgent.execute` raises `ValueError` for every input product:
even when product A's price parses, Product B's constant mojibake price does
not. -/
theorem comparison_execute_always_error (product_a : ProductModel) :
    ComparisonAgent.execute product_a = .error .valueError := by
  unfold ComparisonAgent.execute
  cases h : ContentBlocks.parse_price_block product_a.price with
  | error e =>
    have he := parse_price_block_error_eq h
    subst he
    rfl
  | ok pa => rfl

/-! ### Claim C1 -/

/-- C1: the claim states that for every Product A the Comparator outputs at
least five rows including a Price row whose winner is the strictly
lower-priced product (ties to "Product B").  The code never outputs any rows:
`ComparisonAgent.execute` raises `ValueError` on every input while parsing
Product B's own constant price `"â‚¹899"` (mojibake for `"₹899"`; its `¹`
passes `str.isdigit` but `int()` rejects it), so the comparison table and the
price winner are unreachable. -/
theorem C1_comparator_never_produces_rows :
    ∀ product_a : ProductModel,
      ComparisonAgent.execute product_a = Except.error PyErr.valueError :=
  fun a => comparison_execute_always_error a

/-! ### Claim C7 -/

/-- C7: the claim states that calling the Comparator twice on the same
Product A yields identical Product B, rows and summary, with Product B a
fixed constant.  `_create_fictional_product_b` is indeed a constant function
of its argument, and `execute` is deterministic — but it never yields any
output at all: every call raises `ValueError` (see C1), so there are no rows
or summary to compare. -/
theorem C7_comparator_constant_b_but_no_output :
    ∀ a a' : ProductModel,
      ComparisonAgent.create_fictional_product_b a =
        ComparisonAgent.create_fictional_product_b a' ∧
      ComparisonAgent.execute a = ComparisonAgent.execute a' ∧
      ComparisonAgent.execute a = Except.error PyErr.valueError := by
  intro a a'
  refine ⟨rfl, ?_, comparison_execute_always_error a⟩
  rw [comparison_execute_always_error a, comparison_execute_always_error a']

/-! ### Claim C4 -/

/-- C4: the claim states that the summary's affordability sentence names the
product with the lower parsed price rather than always naming Product A.
The summary template (comparison_agent.py line 123) unconditionally renders
`"{product_a.name} is more affordable at {product_a.price} compared to
{product_b.price}."` for every pair of products and, on top of that, the
summary is never produced at runtime because `execute` raises `ValueError`
first (see C1) — shown here at the concrete higher-priced product A. -/
theorem C4_summary_always_names_product_a :
    (∀ (a b : ProductModel) (common : List String), ∃ pre : String,
        ComparisonAgent.comparison_summary a b common =
          pre ++ (a.name ++ " is more affordable at " ++ a.price ++
                  " compared to " ++ b.price ++ ".")) ∧
    ComparisonAgent.execute productA999 = Except.error PyErr.valueError := by
  constructor
  · intro a b common
    refine ⟨a.name ++ " focuses on " ++ pyLower (String.intercalate " and " a.benefits) ++
      " with " ++ a.concentration ++ ", while " ++ b.name ++ " targets " ++
      pyLower (String.intercalate " and " b.benefits) ++ " using " ++ b.concentration ++
      ". Both products contain " ++
      (if common ≠ [] then String.intercalate ", " common else "different ingredients") ++
      ". ", ?_⟩
    unfold ComparisonAgent.comparison_summary
    apply String.ext
    simp [String.data_append, List.append_assoc]
  · exact comparison_execute_always_error productA999

/-! ### Claim C5 -/

/-- C5: for every Product, the Question Synthesizer returns at least 15
entries (it returns exactly 16) and every one of the six category values
occurs among the generated questions, so the category set equals the full
enumeration. -/
theorem C5_question_catalog_count_and_categories :
    ∀ product : ProductModel,
      15 ≤ (QuestionGeneratorAgent.execute product).length ∧
      ∀ c : QuestionCategory,
        c ∈ (QuestionGeneratorAgent.execute product).map QuestionModel.category := by
  intro p
  constructor
  · simp [QuestionGeneratorAgent.execute]
  · intro c
    cases c <;> simp [QuestionGeneratorAgent.execute]

/-! ### Claim C6 -/

/-- C6 counterexample: the digitless price string `"Free"` makes parsing
fail, but with Python's `ValueError` (from `int("")`), not with the
`PriceParseError` named by the claim — no code path constructs any
`PriceParseError`. -/
theorem C6_counterexample :
    ContentBlocks.parse_price_block "Free" = Except.error PyErr.valueError ∧
    ContentBlocks.parse_price_block "Free" ≠ Except.error PyErr.priceParseError := by
  decide

/-- C6 (amended): for every price string containing no digit characters,
price parsing fails — with a `ValueError` raised by `int("")`, the code
defining no `PriceParseError`. -/
theorem C6_no_digits_fails_with_valueError :
    ∀ s : String, (∀ c ∈ s.data, pyIsDigit c = false) →
      ContentBlocks.parse_price_block s = Except.error PyErr.valueError := by
  intro s h
  have hf : s.data.filter pyIsDigit = [] := by
    rw [List.filter_eq_nil_iff]
    intro c hc
    simp [h c hc]
  unfold ContentBlocks.parse_price_block
  rw [hf]
  simp [pyInt, Except.bind]

/-- C6 witness: the amended theorem applied to the digitless string
`"Free"`. -/
theorem C6_witness :
    ContentBlocks.parse_price_block "Free" = Except.error PyErr.valueError :=
  C6_no_digits_fails_with_valueError "Free" (by decide)

/-! ### Claim C8 -/

/-- C8: `parse_price_block "₹699"` yields numeric value 699 and currency
token `"₹"`; `parse_price_block "$1,000"` yields numeric value 1000 (the
comma is filtered out with the other non-digits); and every successfully
parsed price is tiered "Budget" below 500, "Mid-range" from 500 up to but
excluding 1000, and "Premium" from 1000 on. -/
theorem C8_price_roundtrip_and_tiers :
    ContentBlocks.parse_price_block "₹699" =
      Except.ok { display_price := "₹699", numeric_value := 699, currency := "₹",
                  price_range := "Mid-range" } ∧
    (∃ pb : PriceBlock, ContentBlocks.parse_price_block "$1,000" = Except.ok pb ∧
      pb.numeric_value = 1000) ∧
    (∀ (s : String) (pb : PriceBlock), ContentBlocks.parse_price_block s = Except.ok pb →
      (pb.numeric_value < 500 → pb.price_range = "Budget") ∧
      (500 ≤ pb.numeric_value → pb.numeric_value < 1000 → pb.price_range = "Mid-range") ∧
      (1000 ≤ pb.numeric_value → pb.price_range = "Premium")) := by
  refine ⟨by decide,
    ⟨{ display_price := "$1,000", numeric_value := 1000, currency := "$,",
       price_range := "Premium" }, by decide, rfl⟩, ?_⟩
  intro s pb h
  unfold ContentBlocks.parse_price_block at h
  cases hp : pyInt (s.data.filter pyIsDigit) with
  | error e => rw [hp] at h; simp [Except.bind] at h
  | ok n =>
    rw [hp] at h
    simp only [Except.bind, Except.pure, pure] at h
    have hpb := (Except.ok.injEq _ _).mp h
    subst hpb
    refine ⟨fun h1 => ?_, fun h1 h2 => ?_, fun h1 => ?_⟩
    · have h1' : n < 500 := h1
      show (if n < 500 then "Budget" else if n < 1000 then "Mid-range" else "Premium") =
        "Budget"
      rw [if_pos h1']
    · have h1' : 500 ≤ n := h1
      have h2' : n < 1000 := h2
      show (if n < 500 then "Budget" else if n < 1000 then "Mid-range" else "Premium") =
        "Mid-range"
      rw [if_neg (by omega), if_pos h2']
    · have h1' : 1000 ≤ n := h1
      show (if n < 500 then "Budget" else if n < 1000 then "Mid-range" else "Premium") =
        "Premium"
      rw [if_neg (by omega), if_neg (by omega)]

/-- C8 witness: the tiering clause of the theorem applied at the concrete
parse of `"₹699"`, whose numeric value 699 lies in the Mid-range band. -/
theorem C8_witness :
    ({ display_price := "₹699", numeric_value := 699, currency := "₹",
       price_range := "Mid-range" } : PriceBlock).price_range = "Mid-range" :=
  (C8_price_roundtrip_and_tiers.2.2 "₹699" _ (by decide)).2.1 (by decide) (by decide)

/-! ### Lemmas about the FAQ selection loops -/

/-- The greedy loop only appends: its selection is the initial selection
followed by a sublist of the scanned questions. -/
theorem selectLoop_extends (qs : List QuestionModel) :
    ∀ (sel : List QuestionModel) (seen : List QuestionCategory),
      ∃ t, (WriterAgent.selectLoop qs sel seen).1 = sel ++ t ∧ t.Sublist qs := by
  induction qs with
  | nil =>
    intro sel seen
    exact ⟨[], by simp [WriterAgent.selectLoop], List.Sublist.refl []⟩
  | cons q rest ih =>
    intro sel seen
    by_cases hcap : 5 ≤ sel.length
    · exact ⟨[], by simp [WriterAgent.selectLoop, hcap], by simp⟩
    · by_cases hsel : q.category ∉ seen ∨ sel.length < 3
      · obtain ⟨t, ht, hs⟩ := ih (sel ++ [q])
          (if q.category ∈ seen then seen else q.category :: seen)
        refine ⟨q :: t, ?_, hs.cons₂ q⟩
        simp only [WriterAgent.selectLoop, if_neg hcap, if_pos hsel]
        simp [ht]
      · obtain ⟨t, ht, hs⟩ := ih sel seen
        refine ⟨t, ?_, hs.cons q⟩
        simp only [WriterAgent.selectLoop, if_neg hcap, if_neg hsel]
        exact ht

/-- The greedy loop never selects more than five questions. -/
theorem selectLoop_length_le (qs : List QuestionModel) :
    ∀ sel seen, sel.length ≤ 5 → (WriterAgent.selectLoop qs sel seen).1.length ≤ 5 := by
  induction qs with
  | nil =>
    intro sel seen h
    simpa [WriterAgent.selectLoop] using h
  | cons q rest ih =>
    intro sel seen h
    by_cases hcap : 5 ≤ sel.length
    · simpa [WriterAgent.selectLoop, hcap] using h
    · by_cases hsel : q.category ∉ seen ∨ sel.length < 3
      · simp only [WriterAgent.selectLoop, if_neg hcap, if_pos hsel]
        apply ih
        simp only [List.length_append, List.length_cons, List.length_nil]
        omega
      · simp only [WriterAgent.selectLoop, if_neg hcap, if_neg hsel]
        exact ih sel seen h

/-- Categories in `categories_seen` stay there to the end of the greedy
loop. -/
theorem selectLoop_seen_mono (qs : List QuestionModel) :
    ∀ sel seen c, c ∈ seen → c ∈ (WriterAgent.selectLoop qs sel seen).2 := by
  induction qs with
  | nil =>
    intro sel seen c hc
    simpa [WriterAgent.selectLoop] using hc
  | cons q rest ih =>
    intro sel seen c hc
    by_cases hcap : 5 ≤ sel.length
    · simpa [WriterAgent.selectLoop, hcap] using hc
    · by_cases hsel : q.category ∉ seen ∨ sel.length < 3
      · simp only [WriterAgent.selectLoop, if_neg hcap, if_pos hsel]
        apply ih
        by_cases hq : q.category ∈ seen
        · simpa [hq] using hc
        · simp only [if_neg hq]
          exact List.mem_cons_of_mem _ hc
      · simp only [WriterAgent.selectLoop, if_neg hcap, if_neg hsel]
        exact ih sel seen c hc

/-- If the greedy loop finishes below the five-question cap, the category of
every scanned question ends up in `categories_seen`. -/
theorem selectLoop_covers (qs : List QuestionModel) :
    ∀ sel seen, (WriterAgent.selectLoop qs sel seen).1.length < 5 →
      ∀ q ∈ qs, q.category ∈ (WriterAgent.selectLoop qs sel seen).2 := by
  induction qs with
  | nil =>
    intro sel seen _ q hq
    exact absurd hq (List.not_mem_nil q)
  | cons q rest ih =>
    intro sel seen hlen q' hq'
    by_cases hcap : 5 ≤ sel.length
    · exfalso
      simp only [WriterAgent.selectLoop, if_pos hcap] at hlen
      omega
    · by_cases hsel : q.category ∉ seen ∨ sel.length < 3
      · simp only [WriterAgent.selectLoop, if_neg hcap, if_pos hsel] at hlen ⊢
        rcases List.mem_cons.mp hq' with rfl | hq'
        · apply selectLoop_seen_mono
          by_cases hq : q'.category ∈ seen <;> simp [hq]
        · exact ih _ _ hlen q' hq'
      · simp only [WriterAgent.selectLoop, if_neg hcap, if_neg hsel] at hlen ⊢
        rcases List.mem_cons.mp hq' with rfl | hq'
        · have hmem : q'.category ∈ seen := by
            by_contra hn
            exact hsel (Or.inl hn)
          exact selectLoop_seen_mono rest sel seen _ hmem
        · exact ih _ _ hlen q' hq'

/-- Invariant of the greedy loop: `categories_seen` lists (without
duplicates) categories represented in the selection, and the selection holds
at most two more questions than there are seen categories (after the first
three slots, only unseen categories are admitted). -/
theorem selectLoop_invariant (qs : List QuestionModel) :
    ∀ sel seen,
      (∀ c ∈ seen, c ∈ sel.map QuestionModel.category) →
      seen.Nodup →
      sel.length ≤ 2 + seen.length →
      (∀ c ∈ (WriterAgent.selectLoop qs sel seen).2,
          c ∈ (WriterAgent.selectLoop qs sel seen).1.map QuestionModel.category) ∧
      (WriterAgent.selectLoop qs sel seen).2.Nodup ∧
      (WriterAgent.selectLoop qs sel seen).1.length ≤
        2 + (WriterAgent.selectLoop qs sel seen).2.length := by
  induction qs with
  | nil =>
    intro sel seen h1 h2 h3
    simp only [WriterAgent.selectLoop]
    exact ⟨h1, h2, h3⟩
  | cons q rest ih =>
    intro sel seen h1 h2 h3
    by_cases hcap : 5 ≤ sel.length
    · simp only [WriterAgent.selectLoop, if_pos hcap]
      exact ⟨h1, h2, h3⟩
    · by_cases hsel : q.category ∉ seen ∨ sel.length < 3
      · simp only [WriterAgent.selectLoop, if_neg hcap, if_pos hsel]
        by_cases hq : q.category ∈ seen
        · rw [if_pos hq]
          apply ih
          · intro c hc
            rw [List.map_append]
            exact List.mem_append_left _ (h1 c hc)
          · exact h2
          · have hne : seen ≠ [] := by
              intro h
              rw [h] at hq
              exact absurd hq (List.not_mem_nil _)
            have hpos : 1 ≤ seen.length := by
              cases seen with
              | nil => exact absurd rfl hne
              | cons a l => simp
            have hlt : sel.length < 3 := by
              rcases hsel with h | h
              · exact absurd hq h
              · exact h
            simp only [List.length_append, List.length_cons, List.length_nil]
            omega
        · rw [if_neg hq]
          apply ih
          · intro c hc
            rw [List.map_append]
            rcases List.mem_cons.mp hc with rfl | hc
            · exact List.mem_append_right _ (by simp)
            · exact List.mem_append_left _ (h1 c hc)
          · exact List.nodup_cons.mpr ⟨hq, h2⟩
          · simp only [List.length_append, List.length_cons, List.length_nil]
            omega
      · simp only [WriterAgent.selectLoop, if_neg hcap, if_neg hsel]
        exact ih sel seen h1 h2 h3

/-- When the catalog represents all six categories, the greedy loop reaches
the five-question cap exactly. -/
theorem selectLoop_reaches_cap (qs : List QuestionModel)
    (hcats : ∀ c : QuestionCategory, c ∈ qs.map QuestionModel.category) :
    (WriterAgent.selectLoop qs [] []).1.length = 5 := by
  have hle := selectLoop_length_le qs [] [] (by simp)
  by_contra hne
  have hlt : (WriterAgent.selectLoop qs [] []).1.length < 5 := by omega
  have hcov := selectLoop_covers qs [] [] hlt
  obtain ⟨hseen_sub, hseen_nodup, _⟩ :=
    selectLoop_invariant qs [] [] (by simp) List.nodup_nil (by simp)
  have hall : ∀ c : QuestionCategory, c ∈ (WriterAgent.selectLoop qs [] []).2 := by
    intro c
    obtain ⟨q', hq', hc⟩ := List.mem_map.mp (hcats c)
    exact hc ▸ hcov q' hq'
  have h6 : ([.INFORMATIONAL, .SAFETY, .USAGE, .PURCHASE, .COMPARISON, .INGREDIENTS] :
      List QuestionCategory).length ≤ (WriterAgent.selectLoop qs [] []).2.length :=
    List.Subperm.length_le
      (List.Nodup.subperm (by decide) (fun c _ => hall c))
  have h7 : (WriterAgent.selectLoop qs [] []).2.length ≤
      ((WriterAgent.selectLoop qs [] []).1.map QuestionModel.category).length :=
    List.Subperm.length_le (List.Nodup.subperm hseen_nodup hseen_sub)
  rw [List.length_map] at h7
  simp at h6
  omega

/-- When the catalog represents all six categories, the final selection
spans at least three distinct categories. -/
theorem selectLoop_three_categories (qs : List QuestionModel)
    (hcats : ∀ c : QuestionCategory, c ∈ qs.map QuestionModel.category) :
    3 ≤ ((WriterAgent.selectLoop qs [] []).1.map QuestionModel.category).dedup.length := by
  have hcap := selectLoop_reaches_cap qs hcats
  obtain ⟨hseen_sub, hseen_nodup, hlen⟩ :=
    selectLoop_invariant qs [] [] (by simp) List.nodup_nil (by simp)
  have h3 : 3 ≤ (WriterAgent.selectLoop qs [] []).2.length := by omega
  have hle : (WriterAgent.selectLoop qs [] []).2.length ≤
      ((WriterAgent.selectLoop qs [] []).1.map QuestionModel.category).dedup.length := by
    apply List.Subperm.length_le
    apply List.Nodup.subperm hseen_nodup
    intro c hc
    rw [List.mem_dedup]
    exact hseen_sub c hc
  omega

/-- A duplicate-free catalog yields a duplicate-free greedy selection. -/
theorem selectLoop_nodup (qs : List QuestionModel) (h : qs.Nodup) :
    (WriterAgent.selectLoop qs [] []).1.Nodup := by
  obtain ⟨t, ht, hs⟩ := selectLoop_extends qs [] []
  rw [ht]
  simpa using h.sublist hs

/-- The backfill loop is a no-op once five questions are selected. -/
theorem fillLoop_of_five (fuel : Nat) (sel qs : List QuestionModel) (h : sel.length = 5) :
    WriterAgent.fillLoop fuel sel qs = some sel := by
  cases fuel <;> simp [WriterAgent.fillLoop, h]

/-- One backfill pass never shrinks the selection. -/
theorem fillPass_length_le (qs : List QuestionModel) :
    ∀ sel, sel.length ≤ (WriterAgent.fillPass sel qs).length := by
  induction qs with
  | nil =>
    intro sel
    simp [WriterAgent.fillPass]
  | cons q rest ih =>
    intro sel
    by_cases hq : q ∈ sel
    · simpa [WriterAgent.fillPass, hq] using ih sel
    · by_cases hlen : 5 ≤ sel.length + 1
      · simp [WriterAgent.fillPass, hq, hlen]
      · simp only [WriterAgent.fillPass, if_neg hq, if_neg hlen]
        have h1 := ih (sel ++ [q])
        simp only [List.length_append, List.length_cons, List.length_nil] at h1
        omega

/-- One backfill pass strictly grows the selection whenever some catalog
question is not yet selected. -/
theorem fillPass_progress (qs : List QuestionModel) :
    ∀ sel, (∃ q ∈ qs, q ∉ sel) →
      sel.length + 1 ≤ (WriterAgent.fillPass sel qs).length := by
  induction qs with
  | nil =>
    rintro sel ⟨q, hq, -⟩
    exact absurd hq (List.not_mem_nil q)
  | cons q rest ih =>
    rintro sel ⟨w, hw, hwsel⟩
    by_cases hq : q ∈ sel
    · have hwrest : w ∈ rest := by
        rcases List.mem_cons.mp hw with rfl | h
        · exact absurd hq hwsel
        · exact h
      simpa [WriterAgent.fillPass, hq] using ih sel ⟨w, hwrest, hwsel⟩
    · by_cases hlen : 5 ≤ sel.length + 1
      · simp [WriterAgent.fillPass, hq, hlen]
      · simp only [WriterAgent.fillPass, if_neg hq, if_neg hlen]
        have h1 := fillPass_length_le rest (sel ++ [q])
        simp only [List.length_append, List.length_cons, List.length_nil] at h1
        omega

/-- One backfill pass preserves freedom from duplicates (the `q not in
selected_questions` membership check). -/
theorem fillPass_nodup (qs : List QuestionModel) :
    ∀ sel, sel.Nodup → (WriterAgent.fillPass sel qs).Nodup := by
  induction qs with
  | nil =>
    intro sel h
    simpa [WriterAgent.fillPass] using h
  | cons q rest ih =>
    intro sel h
    by_cases hq : q ∈ sel
    · simpa [WriterAgent.fillPass, hq] using ih sel h
    · have happ : (sel ++ [q]).Nodup := by
        rw [List.nodup_append]
        refine ⟨h, by simp, ?_⟩
        intro a ha hmem
        simp only [List.mem_singleton] at hmem
        exact hq (hmem ▸ ha)
      by_cases hlen : 5 ≤ sel.length + 1
      · simpa [WriterAgent.fillPass, hq, hlen] using happ
      · simp only [WriterAgent.fillPass, if_neg hq, if_neg hlen]
        exact ih _ happ

/-- One backfill pass only adds questions from the catalog. -/
theorem fillPass_mem (qs : List QuestionModel) :
    ∀ sel x, x ∈ WriterAgent.fillPass sel qs → x ∈ sel ∨ x ∈ qs := by
  induction qs with
  | nil =>
    intro sel x hx
    left
    simpa [WriterAgent.fillPass] using hx
  | cons q rest ih =>
    intro sel x hx
    by_cases hq : q ∈ sel
    · rcases ih sel x (by simpa [WriterAgent.fillPass, hq] using hx) with h | h
      · exact Or.inl h
      · exact Or.inr (List.mem_cons_of_mem _ h)
    · by_cases hlen : 5 ≤ sel.length + 1
      · simp only [WriterAgent.fillPass, if_neg hq, if_pos hlen] at hx
        rcases List.mem_append.mp hx with h | h
        · exact Or.inl h
        · simp only [List.mem_singleton] at h
          exact Or.inr (by simp [h])
      · simp only [WriterAgent.fillPass, if_neg hq, if_neg hlen] at hx
        rcases ih _ x hx with h | h
        · rcases List.mem_append.mp h with h' | h'
          · exact Or.inl h'
          · simp only [List.mem_singleton] at h'
            exact Or.inr (by simp [h'])
        · exact Or.inr (List.mem_cons_of_mem _ h)

/-- For a duplicate-free catalog the backfill `while` loop terminates:
each pass strictly grows the selection, so fuel covering the gap to the
five-question cap is enough. -/
theorem fillLoop_terminates (qs : List QuestionModel) (hqs : qs.Nodup) :
    ∀ (n : Nat) (sel : List QuestionModel), sel.Nodup → (∀ x ∈ sel, x ∈ qs) →
      5 ≤ n + sel.length → ∃ r, WriterAgent.fillLoop n sel qs = some r := by
  intro n
  induction n with
  | zero =>
    intro sel _ _ h5
    refine ⟨sel, ?_⟩
    simp only [WriterAgent.fillLoop]
    rw [if_neg]
    rintro ⟨h1, -⟩
    omega
  | succ n ih =>
    intro sel hnd hsub h5
    by_cases hcond : sel.length < 5 ∧ sel.length < qs.length
    · obtain ⟨h1, h2⟩ := hcond
      have hex : ∃ q ∈ qs, q ∉ sel := by
        by_contra hno
        push_neg at hno
        have hsubq : qs ⊆ sel := fun q hq => hno q hq
        have := List.Subperm.length_le (List.Nodup.subperm hqs hsubq)
        omega
      have hprog := fillPass_progress qs sel hex
      have hnd' := fillPass_nodup qs sel hnd
      have hsub' : ∀ x ∈ WriterAgent.fillPass sel qs, x ∈ qs := by
        intro x hx
        rcases fillPass_mem qs sel x hx with h | h
        · exact hsub x h
        · exact h
      simp only [WriterAgent.fillLoop, if_pos (And.intro h1 h2)]
      exact ih _ hnd' hsub' (by omega)
    · refine ⟨sel, ?_⟩
      simp only [WriterAgent.fillLoop, if_neg hcond]

/-! ### Claim C2 -/

/-- C2 counterexample: on a catalog of exactly 15 duplicate-free questions
spanning all six categories in generation order, the first three selected
questions are simply the first three catalog entries — all `Informational` —
so only one distinct category (not at least three) appears among the first
three selections.  The loop condition `question.category not in
categories_seen or len(selected_questions) < 3` accepts any question while
fewer than three are selected. -/
theorem C2_counterexample :
    c2Catalog.length = 15 ∧
    c2Catalog.Nodup ∧
    (([.INFORMATIONAL, .SAFETY, .USAGE, .PURCHASE, .COMPARISON, .INGREDIENTS] :
        List QuestionCategory).all
      (fun c => c ∈ c2Catalog.map QuestionModel.category)) = true ∧
    (WriterAgent.assemble_faq_page 0 exampleProduct c2Catalog).map
        (fun page => ((page.questions.take 3).map QuestionModel.category).dedup) =
      some [QuestionCategory.INFORMATIONAL] ∧
    ¬ 3 ≤ ([QuestionCategory.INFORMATIONAL] : List QuestionCategory).length := by
  decide

/-- C2 (amended): given a catalog of exactly 15 duplicate-free questions
covering all six categories, FAQ assembly selects exactly five questions
with no duplicate question objects, and at least three distinct categories
appear among the five selected questions (the first three selected are the
first three catalog entries, so the three-category guarantee holds for the
whole selection, not for its first three elements). -/
theorem C2_faq_selection_amended :
    ∀ (fuel : Nat) (product : ProductModel) (questions : List QuestionModel),
      questions.length = 15 →
      (∀ c : QuestionCategory, c ∈ questions.map QuestionModel.category) →
      questions.Nodup →
      ∃ page : FAQPageModel,
        WriterAgent.assemble_faq_page fuel product questions = some page ∧
        page.questions.length = 5 ∧
        page.total_questions = 5 ∧
        page.questions.Nodup ∧
        3 ≤ (page.questions.map QuestionModel.category).dedup.length := by
  intro fuel product questions _hlen hcats hnodup
  have hcap := selectLoop_reaches_cap questions hcats
  refine ⟨{ product_name := product.name,
            questions := (WriterAgent.selectLoop questions [] []).1,
            total_questions := (WriterAgent.selectLoop questions [] []).1.length },
          ?_, hcap, hcap, selectLoop_nodup questions hnodup,
          selectLoop_three_categories questions hcats⟩
  unfold WriterAgent.assemble_faq_page
  rw [fillLoop_of_five fuel _ questions hcap]

/-- C2 witness: the amended theorem applied to the concrete 15-question
catalog derived from the sample product. -/
theorem C2_witness :
    ∃ page : FAQPageModel,
      WriterAgent.assemble_faq_page 0 exampleProduct c2Catalog = some page ∧
      page.questions.length = 5 ∧
      page.total_questions = 5 ∧
      page.questions.Nodup ∧
      3 ≤ (page.questions.map QuestionModel.category).dedup.length :=
  C2_faq_selection_amended 0 exampleProduct c2Catalog (by decide)
    (by intro c; cases c <;> decide) (by decide)

/-! ### Claim C10 -/

/-- On the four-duplicate catalog the greedy phase selects three copies, the
backfill condition holds (3 < 5 and 3 < 4), and a backfill pass adds nothing
because the single distinct question is already selected — so the `while`
loop never exits, whatever the fuel. -/
theorem fillLoop_dup_none :
    ∀ fuel : Nat,
      WriterAgent.fillLoop fuel [dupQuestion, dupQuestion, dupQuestion] dupCatalog =
        none := by
  intro fuel
  induction fuel with
  | zero => decide
  | succ n ih =>
    have hpass : WriterAgent.fillPass [dupQuestion, dupQuestion, dupQuestion] dupCatalog =
        [dupQuestion, dupQuestion, dupQuestion] := by decide
    simp only [WriterAgent.fillLoop]
    rw [if_pos (by decide)]
    rw [hpass]
    exact ih

/-- C10 counterexample: on a catalog of four field-equal questions, FAQ
assembly does not terminate — the backfill `while` loop makes no progress
(every catalog entry is already "in" the selection by equality) while its
condition `len(selected) < 5 and len(selected) < len(questions)` stays true,
so no amount of fuel makes the loop return. -/
theorem C10_counterexample :
    WriterAgent.assemble_faq_page 5 exampleProduct dupCatalog = none ∧
    ¬ ∃ fuel : Nat,
        (WriterAgent.assemble_faq_page fuel exampleProduct dupCatalog).isSome = true := by
  have hsel : (WriterAgent.selectLoop dupCatalog [] []).1 =
      [dupQuestion, dupQuestion, dupQuestion] := by decide
  constructor
  · unfold WriterAgent.assemble_faq_page
    rw [hsel, fillLoop_dup_none 5]
  · rintro ⟨fuel, hf⟩
    unfold WriterAgent.assemble_faq_page at hf
    rw [hsel, fillLoop_dup_none fuel] at hf
    simp at hf

/-- C10 (amended): for every Product and every catalog free of field-equal
duplicate entries — in particular any catalog of fewer than five distinct
questions — FAQ page assembly terminates within five backfill passes and
returns a page; with duplicate entries the backfill loop can spin forever. -/
theorem C10_faq_assembly_terminates_amended :
    ∀ (product : ProductModel) (questions : List QuestionModel),
      questions.Nodup →
      ∃ page : FAQPageModel,
        WriterAgent.assemble_faq_page 5 product questions = some page := by
  intro product questions hnodup
  obtain ⟨t, ht, hs⟩ := selectLoop_extends questions [] []
  have hsel_nodup : (WriterAgent.selectLoop questions [] []).1.Nodup := by
    rw [ht]
    simpa using hnodup.sublist hs
  have hsel_sub : ∀ x ∈ (WriterAgent.selectLoop questions [] []).1, x ∈ questions := by
    rw [ht]
    intro x hx
    simp only [List.nil_append] at hx
    exact hs.subset hx
  obtain ⟨r, hr⟩ := fillLoop_terminates questions hnodup 5 _ hsel_nodup hsel_sub (by omega)
  refine ⟨{ product_name := product.name, questions := r, total_questions := r.length }, ?_⟩
  unfold WriterAgent.assemble_faq_page
  rw [hr]

/-- C10 witness: the amended theorem applied to a one-question catalog
(fewer than five questions, no duplicates). -/
theorem C10_witness :
    ∃ page : FAQPageModel,
      WriterAgent.assemble_faq_page 5 exampleProduct [dupQuestion] = some page :=
  C10_faq_assembly_terminates_amended exampleProduct [dupQuestion] (by decide)

/-! ### Claim C3 -/

/-- C3 counterexample: a raw record missing the `price` key makes parsing
fail with Python's `KeyError("price")`, not with the `MissingFieldError`
named by the claim (no code path constructs one), and the status afterwards
reports the state string `"failed"` (the lowercase enum value), not
`"Failed"`. -/
theorem C3_counterexample :
    ParserAgent.execute recordMissingPrice = Except.error (PyErr.keyError "price") ∧
    PyErr.keyError "price" ≠ PyErr.missingFieldError "price" ∧
    (WorkflowOrchestrator.execute_pipeline 0 initialOrchState recordMissingPrice).map
        (fun r => (WorkflowOrchestrator.get_pipeline_status r.1).current_state) =
      some "failed" ∧
    "failed" ≠ "Failed" := by
  decide

/-- C3 (amended): for every raw record that lacks the `price` key but has
the other seven required keys, pipeline execution fails with
`KeyError("price")` — naming the missing key — and the orchestrator status
afterwards reports current state `"failed"` with `product_parsed = false`. -/
theorem C3_missing_price_keyerror_and_failed_status :
    ∀ (fuel : Nat) (raw_data : RawRecord),
      raw_data.name.isSome = true →
      raw_data.concentration.isSome = true →
      raw_data.skin_type.isSome = true →
      raw_data.key_ingredients.isSome = true →
      raw_data.benefits.isSome = true →
      raw_data.how_to_use.isSome = true →
      raw_data.side_effects.isSome = true →
      raw_data.price = none →
      ∃ s' : OrchState,
        WorkflowOrchestrator.execute_pipeline fuel initialOrchState raw_data =
          some (s', Except.error (PyErr.keyError "price")) ∧
        (WorkflowOrchestrator.get_pipeline_status s').current_state = "failed" ∧
        (WorkflowOrchestrator.get_pipeline_status s').product_parsed = false := by
  intro fuel raw h1 h2 h3 h4 h5 h6 h7 h8
  obtain ⟨nm, hnm⟩ := Option.isSome_iff_exists.mp h1
  obtain ⟨cc, hcc⟩ := Option.isSome_iff_exists.mp h2
  obtain ⟨st, hst⟩ := Option.isSome_iff_exists.mp h3
  obtain ⟨ki, hki⟩ := Option.isSome_iff_exists.mp h4
  obtain ⟨bf, hbf⟩ := Option.isSome_iff_exists.mp h5
  obtain ⟨ht, hht⟩ := Option.isSome_iff_exists.mp h6
  obtain ⟨se, hse⟩ := Option.isSome_iff_exists.mp h7
  have hparse : ParserAgent.execute raw = Except.error (PyErr.keyError "price") := by
    unfold ParserAgent.execute
    rw [hnm, hcc, hst, hki, hbf, hht, hse, h8]
    rfl
  refine ⟨{ initialOrchState with state := .FAILED }, ?_, rfl, rfl⟩
  unfold WorkflowOrchestrator.execute_pipeline
  rw [hparse]

/-- C3 witness: the amended theorem applied to the sample record with the
`price` key removed. -/
theorem C3_witness :
    ∃ s' : OrchState,
      WorkflowOrchestrator.execute_pipeline 0 initialOrchState recordMissingPrice =
        some (s', Except.error (PyErr.keyError "price")) ∧
      (WorkflowOrchestrator.get_pipeline_status s').current_state = "failed" ∧
      (WorkflowOrchestrator.get_pipeline_status s').product_parsed = false :=
  C3_missing_price_keyerror_and_failed_status 0 recordMissingPrice
    rfl rfl rfl rfl rfl rfl rfl rfl

/-! ### Claim C9 -/

/-- C9 (amended): for every Product, the usage-instruction structure has
frequency `"Daily (AM)"` exactly when the lowercased instruction mentions
`morning` (else `"As directed"`), timing `"Before sunscreen"` exactly when
that phrase appears (else `"As needed"`), and an application method taken
from the FIRST whitespace token anywhere in the instruction whose
dash-normalized leading segment is all digits — requiring only that the word
`drops` occur somewhere in the text, not that the token immediately precede
it — defaulting to `"Topical application"` when no such token exists or
`drops` is absent. -/
theorem C9_usage_block_amended :
    ∀ product : ProductModel,
      (strContainsStr (pyLower product.how_to_use) "morning" = true →
        (ContentBlocks.extract_usage_block product).frequency = "Daily (AM)") ∧
      (strContainsStr (pyLower product.how_to_use) "morning" = false →
        (ContentBlocks.extract_usage_block product).frequency = "As directed") ∧
      (strContainsStr (pyLower product.how_to_use) "before sunscreen" = true →
        (ContentBlocks.extract_usage_block product).timing = "Before sunscreen") ∧
      (strContainsStr (pyLower product.how_to_use) "before sunscreen" = false →
        (ContentBlocks.extract_usage_block product).timing = "As needed") ∧
      (strContainsStr (pyLower product.how_to_use) "drops" = false →
        (ContentBlocks.extract_usage_block product).application_method =
          "Topical application") ∧
      (strContainsStr (pyLower product.how_to_use) "drops" = true →
        (pySplitWS product.how_to_use).filter ContentBlocks.tokenHeadIsDigit = [] →
        (ContentBlocks.extract_usage_block product).application_method =
          "Topical application") ∧
      (∀ w ws, strContainsStr (pyLower product.how_to_use) "drops" = true →
        (pySplitWS product.how_to_use).filter ContentBlocks.tokenHeadIsDigit = w :: ws →
        (ContentBlocks.extract_usage_block product).application_method =
          "Apply " ++ w ++ " drops") := by
  intro p
  refine ⟨fun h => ?_, fun h => ?_, fun h => ?_, fun h => ?_, fun h => ?_,
    fun h h2 => ?_, fun w ws h h2 => ?_⟩
  · simp [ContentBlocks.extract_usage_block, h]
  · simp [ContentBlocks.extract_usage_block, h]
  · simp [ContentBlocks.extract_usage_block, h]
  · simp [ContentBlocks.extract_usage_block, h]
  · simp [ContentBlocks.extract_usage_block, h]
  · simp [ContentBlocks.extract_usage_block, h, h2]
  · simp [ContentBlocks.extract_usage_block, h, h2]

/-- C9 counterexample: for the instruction `"After 10 minutes apply 2-3
drops"`, the token immediately preceding `drops` is `2-3`, yet the code picks
the first numeric-headed token of the whole instruction and renders
`"Apply 10 drops"` — the adjacency to `drops` required by the claim is never
checked. -/
theorem C9_counterexample :
    pySplitWS c9Product.how_to_use = ["After", "10", "minutes", "apply", "2-3", "drops"] ∧
    (ContentBlocks.extract_usage_block c9Product).application_method = "Apply 10 drops" ∧
    "Apply 10 drops" ≠ "Apply 2-3 drops" := by
  decide

/-- C9 witness: the amended theorem applied to the sample product, whose
instruction mentions `morning`, contains `before sunscreen`, and whose first
numeric-headed token is `2-3`. -/
theorem C9_witness :
    (ContentBlocks.extract_usage_block exampleProduct).frequency = "Daily (AM)" ∧
    (ContentBlocks.extract_usage_block exampleProduct).timing = "Before sunscreen" ∧
    (ContentBlocks.extract_usage_block exampleProduct).application_method =
      "Apply 2-3 drops" :=
  ⟨(C9_usage_block_amended exampleProduct).1 (by decide),
   (C9_usage_block_amended exampleProduct).2.2.1 (by decide),
   (C9_usage_block_amended exampleProduct).2.2.2.2.2.2 "2-3" [] (by decide) (by decide)⟩
